import Mathlib

/-!
Verification development for the `generic-greet` library (src/lib.rs).

The Rust source is shallowly embedded: each Rust module becomes a Lean
namespace, each struct a Lean structure, each trait a type class, each
trait impl an instance, and `format!` strings become explicit `String`
appends.  The `u64` identifier carries no arithmetic in the source, so it
is modelled as `Nat` (only its decimal rendering is observed).
-/

namespace GenericGreet

namespace v2

/-- `struct CasualPerson { name: String }` from mod v2. -/
structure CasualPerson where
name : String
deriving Repr, DecidableEq

/-- `CasualPerson::new(name: &str)` stores the given text unchanged. -/
def CasualPerson.new (name : String) : CasualPerson :=
{ name := name }

end v2

namespace v3

open v2

/-- `struct FormalPerson { title, first_name, last_name: String }` from mod v3. -/
structure FormalPerson where
title : String
first_name : String
last_name : String
deriving Repr, DecidableEq

/-- `FormalPerson::new` stores the three given texts unchanged. -/
def FormalPerson.new (title first_name last_name : String) : FormalPerson :=
{ title := title, first_name := first_name, last_name := last_name }

/-- `struct Anonymous { id: u64 }` from mod v3 (`u64` modelled as `Nat`). -/
structure Anonymous where
id : Nat
deriving Repr, DecidableEq

/-- `Anonymous::new(id)` stores the identifier. -/
def Anonymous.new (id : Nat) : Anonymous :=
{ id := id }

/-- `trait HasName { fn name(&self) -> String; }` from mod v3. -/
class HasName (α : Type) where
name : α → String

/-- `impl HasName for FormalPerson`: "{title} {first} {last}". -/
instance : HasName FormalPerson where
name p := p.title ++ " " ++ p.first_name ++ " " ++ p.last_name

/-- `impl HasName for CasualPerson`: the stored name, unchanged. -/
instance : HasName CasualPerson where
name p := p.name

/-- `impl HasName for Anonymous`: "Anonymous #{id}". -/
instance : HasName Anonymous where
name p := "Anonymous #" ++ toString p.id

/-- `fn greet_generic<Person: HasName>(person) -> String` from mod v3. -/
def greet_generic {P : Type} [HasName P] (person : P) : String :=
"Hello, " ++ HasName.name person ++ "!"

/-- `pub fn greet_many_generic<Person: HasName>(persons: &Vec<Person>)`. -/
def greet_many_generic {P : Type} [HasName P] (persons : List P) : List String :=
persons.map greet_generic

end v3

namespace v5

open v2 v3

/-- `enum Either<A, B> { Left(A), Right(B) }` from mod v5. -/
inductive Either (A B : Type) where
| Left : A → Either A B
| Right : B → Either A B
deriving Repr, DecidableEq

/-- `impl<A: HasName, B: HasName> HasName for Either<A, B>`:
forward to whichever branch is populated. -/
instance {A B : Type} [HasName A] [HasName B] : HasName (Either A B) where
name p :=
  match p with
  | Either.Left person => HasName.name person
  | Either.Right person => HasName.name person

/-- `type AnyPersonGeneric = Either<FormalPerson, Either<CasualPerson, Anonymous>>`. -/
abbrev AnyPersonGeneric : Type :=
Either FormalPerson (Either CasualPerson Anonymous)

/-- `struct AnyPerson(pub Either<FormalPerson, Either<CasualPerson, Anonymous>>)`,
the single tuple field `.0` is called `inner` here. -/
structure AnyPerson where
inner : AnyPersonGeneric

/-- `impl HasName for AnyPerson`: forwards to the wrapped sum. -/
instance : HasName AnyPerson where
name p := HasName.name p.inner

/-- `AnyPerson::formal`: inject into the Left slot. -/
def AnyPerson.formal (person : FormalPerson) : AnyPerson :=
{ inner := Either.Left person }

/-- `AnyPerson::casual`: inject into the Right-Left slot. -/
def AnyPerson.casual (person : CasualPerson) : AnyPerson :=
{ inner := Either.Right (Either.Left person) }

/-- `AnyPerson::anon`: inject into the Right-Right slot. -/
def AnyPerson.anon (person : Anonymous) : AnyPerson :=
{ inner := Either.Right (Either.Right person) }

/-- `pub fn make_persons() -> Vec<AnyPerson>` from mod v5. -/
def make_persons : List AnyPerson :=
[ AnyPerson.formal (FormalPerson.new "Mr." "John" "Smith"),
  AnyPerson.casual (CasualPerson.new "Alice"),
  AnyPerson.anon (Anonymous.new 8) ]

end v5

namespace v6

open v3

/-- `trait Greeter { fn greet(&self, person: &impl HasName) -> String; }`
from mod v6: the method is generic over any subject with the capability. -/
class Greeter (G : Type) where
greet : G → {P : Type} → [HasName P] → P → String

/-- `struct HelloGreeter;` from mod v6. -/
structure HelloGreeter where
deriving Repr, DecidableEq

/-- `impl Greeter for HelloGreeter`: "hello, {name}!". -/
instance : Greeter HelloGreeter where
greet := fun _ {P} [HasName P] person => "hello, " ++ HasName.name person ++ "!"

/-- `struct WordGreeter { greet_word: String }` from mod v6. -/
structure WordGreeter where
greet_word : String
deriving Repr, DecidableEq

/-- `impl Greeter for WordGreeter`: "{word}, {name}!". -/
instance : Greeter WordGreeter where
greet := fun g {P} [HasName P] person =>
  g.greet_word ++ ", " ++ HasName.name person ++ "!"

/-- `WordGreeter::new(greet_word)` stores the given word. -/
def WordGreeter.new (greet_word : String) : WordGreeter :=
{ greet_word := greet_word }

/-- `pub fn greet_many<Greet: Greeter, Person: HasName>` from mod v6:
map the greeter over the subjects in order. -/
def greet_many {G P : Type} [Greeter G] [HasName P]
    (greeter : G) (persons : List P) : List String :=
persons.map (fun person => Greeter.greet greeter person)

end v6

namespace v7

open v2 v3 v5

/-- `trait Greeter<Person> { fn greet(&self, person: &Person) -> String; }`
from mod v7. -/
class Greeter (G P : Type) where
greet : G → P → String

/-- `fn greet_many<P, G: Greeter<P>>` from mod v7. -/
def greet_many {P G : Type} [Greeter G P]
    (greeter : G) (persons : List P) : List String :=
persons.map (fun person => Greeter.greet greeter person)

/-- `impl<G, A, B> Greeter<Either<A, B>> for G where G: Greeter<A> + Greeter<B>`:
branch on which subject variant is populated. -/
instance {G A B : Type} [Greeter G A] [Greeter G B] : Greeter G (Either A B) where
greet g person :=
  match person with
  | Either.Left p => Greeter.greet g p
  | Either.Right p => Greeter.greet g p

/-- `struct CustomGreeter;` from mod v7. -/
structure CustomGreeter where
deriving Repr, DecidableEq

/-- `impl Greeter<FormalPerson> for CustomGreeter`: "Welcome back, {title} {last}!". -/
instance : Greeter CustomGreeter FormalPerson where
greet _ person := "Welcome back, " ++ person.title ++ " " ++ person.last_name ++ "!"

/-- `impl Greeter<CasualPerson> for CustomGreeter`: "Hello, {name}!". -/
instance : Greeter CustomGreeter CasualPerson where
greet _ person := "Hello, " ++ person.name ++ "!"

/-- `impl Greeter<Anonymous> for CustomGreeter`: "Hello stranger, your ID is {id}.". -/
instance : Greeter CustomGreeter Anonymous where
greet _ person := "Hello stranger, your ID is " ++ toString person.id ++ "."

/-- `struct AnyPersonGreeter<G>(G)` from mod v7. -/
structure AnyPersonGreeter (G : Type) where
inner : G

/-- `impl<G: Greeter<AnyPersonGeneric>> Greeter<AnyPerson> for AnyPersonGreeter<G>`. -/
instance {G : Type} [Greeter G AnyPersonGeneric] : Greeter (AnyPersonGreeter G) AnyPerson where
greet g person := Greeter.greet g.inner person.inner

end v7

namespace v8

open v2 v3 v5
open v6 hiding Greeter

/-- `trait Greeter<Person>` from mod v8 (a fresh trait, separate from v7's). -/
class Greeter (G P : Type) where
greet : G → P → String

/-- `pub struct Unit<G>(G)` from mod v8; the tuple field `.0` is `inner`. -/
structure Unit (G : Type) where
inner : G

/-- `impl<G, A, B> Greeter<Either<A, B>> for Unit<G>` where `Unit<G>` greets
both `A` and `B`: branch on which subject variant is populated. -/
instance {G A B : Type} [Greeter (Unit G) A] [Greeter (Unit G) B] :
    Greeter (Unit G) (Either A B) where
greet g person :=
  match person with
  | Either.Left p => Greeter.greet g p
  | Either.Right p => Greeter.greet g p

/-- `impl<G1, G2, P> Greeter<P> for Either<G1, G2>` where both greet `P`:
branch on which handler variant is populated. -/
instance {G1 G2 P : Type} [Greeter G1 P] [Greeter G2 P] :
    Greeter (Either G1 G2) P where
greet g person :=
  match g with
  | Either.Left g1 => Greeter.greet g1 person
  | Either.Right g2 => Greeter.greet g2 person

/-- `trait NameGreeter { fn greet_name(&self, person: &impl HasName) -> String; }`. -/
class NameGreeter (G : Type) where
greet_name : G → {P : Type} → [HasName P] → P → String

/-- `pub struct WithName<G>(G)` from mod v8. -/
structure WithName (G : Type) where
inner : G

/-- `impl<G: NameGreeter, P: HasName> Greeter<P> for WithName<G>`. -/
instance {G P : Type} [NameGreeter G] [HasName P] : Greeter (WithName G) P where
greet g person := NameGreeter.greet_name g.inner person

/-- `impl NameGreeter for WordGreeter`: "{word}, {name}!". -/
instance : NameGreeter WordGreeter where
greet_name := fun g {P} [HasName P] person =>
  g.greet_word ++ ", " ++ HasName.name person ++ "!"

/-- `pub struct PoliteGreeter;` from mod v8. -/
structure PoliteGreeter where
deriving Repr, DecidableEq

/-- `impl Greeter<FormalPerson> for Unit<PoliteGreeter>`: "Welcome back, {title} {last}!". -/
instance : Greeter (Unit PoliteGreeter) FormalPerson where
greet _ person := "Welcome back, " ++ person.title ++ " " ++ person.last_name ++ "!"

/-- `impl Greeter<CasualPerson> for Unit<PoliteGreeter>`: "Hello, {name}!". -/
instance : Greeter (Unit PoliteGreeter) CasualPerson where
greet _ person := "Hello, " ++ person.name ++ "!"

/-- `impl Greeter<Anonymous> for Unit<PoliteGreeter>`: "Hello stranger, your ID is {id}.". -/
instance : Greeter (Unit PoliteGreeter) Anonymous where
greet _ person := "Hello stranger, your ID is " ++ toString person.id ++ "."

/-- `pub struct PersonGreeter<P>(P)` from mod v8: a handler carrying a
name-bearing payload of its own. -/
structure PersonGreeter (P : Type) where
inner : P

/-- `impl<P: HasName> Greeter<FormalPerson> for Unit<PersonGreeter<P>>`:
"Greetings, {title} {last}! My name is {own name}". -/
instance {P : Type} [HasName P] : Greeter (Unit (PersonGreeter P)) FormalPerson where
greet g person :=
  "Greetings, " ++ person.title ++ " " ++ person.last_name ++ "! My name is "
    ++ HasName.name g.inner.inner

/-- `impl<P: HasName> Greeter<CasualPerson> for Unit<PersonGreeter<P>>`:
"Hi, {name}! I am {own name}". -/
instance {P : Type} [HasName P] : Greeter (Unit (PersonGreeter P)) CasualPerson where
greet g person :=
  "Hi, " ++ person.name ++ "! I am " ++ HasName.name g.inner.inner

/-- `impl<P: HasName> Greeter<Anonymous> for Unit<PersonGreeter<P>>`:
"Hello, stranger with ID #{id}! What is your name?". -/
instance {P : Type} [HasName P] : Greeter (Unit (PersonGreeter P)) Anonymous where
greet _ person :=
  "Hello, stranger with ID #" ++ toString person.id ++ "! What is your name?"

/-- `fn greet_many<P, G: Greeter<P>>(greeters: &Vec<G>, persons: &Vec<P>)`
from mod v8: each greeter mapped over all persons, then flattened. -/
def greet_many {P G : Type} [Greeter G P]
    (greeters : List G) (persons : List P) : List String :=
(greeters.map (fun greeter =>
  persons.map (fun person => Greeter.greet greeter person))).flatten

/-- `type AnyGreeterGeneric = Either<Unit<PoliteGreeter>,
Either<Unit<PersonGreeter<AnyPerson>>, WithName<WordGreeter>>>`. -/
abbrev AnyGreeterGeneric : Type :=
Either (Unit PoliteGreeter)
  (Either (Unit (PersonGreeter AnyPerson)) (WithName WordGreeter))

/-- `pub struct AnyGreeter(pub AnyGreeterGeneric)`. -/
structure AnyGreeter where
inner : AnyGreeterGeneric

/-- `impl Greeter<AnyPerson> for AnyGreeter`: unwrap both sides and dispatch
through the nested sums. -/
instance : Greeter AnyGreeter AnyPerson where
greet g person := Greeter.greet g.inner person.inner

/-- `AnyGreeter::polite`: inject into the Left slot. -/
def AnyGreeter.polite (greeter : PoliteGreeter) : AnyGreeter :=
{ inner := Either.Left { inner := greeter } }

/-- `AnyGreeter::person`: inject into the Right-Left slot. -/
def AnyGreeter.person (greeter : AnyPerson) : AnyGreeter :=
{ inner := Either.Right (Either.Left { inner := { inner := greeter } }) }

/-- `AnyGreeter::word`: inject into the Right-Right slot. -/
def AnyGreeter.word (greeter : WordGreeter) : AnyGreeter :=
{ inner := Either.Right (Either.Right { inner := greeter }) }

end v8

end GenericGreet

/-! ## Helper lemmas about strings -/

namespace GenericGreet

theorem string_data_append (s t : String) : (s ++ t).data = s.data ++ t.data :=
rfl

theorem string_append_assoc (a b c : String) : a ++ b ++ c = a ++ (b ++ c) := by
apply congrArg String.mk
exact List.append_assoc a.data b.data c.data

theorem string_getLast_append (s t : String) (c : Char)
    (h : t.data.getLast? = some c) : (s ++ t).data.getLast? = some c := by
have hne : t.data ≠ [] := by
  intro hnil
  rw [hnil] at h
  simp at h
rw [string_data_append, List.getLast?_append_of_ne_nil s.data hne, h]

end GenericGreet

open GenericGreet GenericGreet.v2 GenericGreet.v3 GenericGreet.v5 GenericGreet.v6

/-! ## Claim theorems -/

/-- Claim C1: for all types A, B with the HasName capability, Either A B has it
too, name (Left a) = name a and name (Right b) = name b, and the forwarding
composes across nesting (shown here through an extra level on either side). -/
theorem c1_subject_sum_forwarding {A B C : Type} [HasName A] [HasName B] [HasName C]
    (a : A) (b : B) (c : C) :
    HasName.name (Either.Left a : Either A B) = HasName.name a
    ∧ HasName.name (Either.Right b : Either A B) = HasName.name b
    ∧ HasName.name (Either.Right (Either.Left b) : Either A (Either B C)) = HasName.name b
    ∧ HasName.name (Either.Right (Either.Right c) : Either A (Either B C)) = HasName.name c :=
⟨rfl, rfl, rfl, rfl⟩

/-- Claim C2: for handler types G1, G2 both implementing the v8 Greeter
capability for subjects P, Either G1 G2 implements it, and the call is
dispatched to the populated handler branch. -/
theorem c2_handler_sum_forwarding {G1 G2 P : Type} [v8.Greeter G1 P] [v8.Greeter G2 P]
    (g1 : G1) (g2 : G2) (p : P) :
    v8.Greeter.greet (Either.Left g1 : Either G1 G2) p = v8.Greeter.greet g1 p
    ∧ v8.Greeter.greet (Either.Right g2 : Either G1 G2) p = v8.Greeter.greet g2 p :=
⟨rfl, rfl⟩

/-- Claim C3: greet_many (and greet_many_generic) are length-preserving and
pointwise: the i-th output is the greeting of the i-th input, so order is
preserved with one output per input. -/
theorem c3_greet_many_pointwise {G P : Type} [v6.Greeter G] [HasName P]
    (g : G) (xs : List P) :
    (v6.greet_many g xs).length = xs.length
    ∧ (∀ i : Nat, (v6.greet_many g xs).get? i
        = (xs.get? i).map (fun p => v6.Greeter.greet g p))
    ∧ (greet_many_generic xs).length = xs.length
    ∧ (∀ i : Nat, (greet_many_generic xs).get? i = (xs.get? i).map greet_generic) := by
refine ⟨?_, fun i => ?_, ?_, fun i => ?_⟩
· simp [v6.greet_many]
· simp [v6.greet_many]
· simp [greet_many_generic]
· simp [greet_many_generic]

/-- Claim C4: the multi-handler bulk dispatch of mod v8 is the flattened
concatenation in handler-major, subject-minor order; for handlers [g1, g2]
and subjects [p1, p2] the output is exactly the four greetings in that order,
and in general a leading handler contributes its whole row first. -/
theorem c4_multi_handler_order {P G : Type} [v8.Greeter G P]
    (g1 g2 : G) (p1 p2 : P) (gs : List G) (ps : List P) :
    v8.greet_many [g1, g2] [p1, p2]
      = [v8.Greeter.greet g1 p1, v8.Greeter.greet g1 p2,
         v8.Greeter.greet g2 p1, v8.Greeter.greet g2 p2]
    ∧ v8.greet_many (g1 :: gs) ps
      = ps.map (fun p => v8.Greeter.greet g1 p) ++ v8.greet_many gs ps := by
constructor
· simp [v8.greet_many]
· simp [v8.greet_many]

/-- Claim C5: the name capability of each concrete subject variant returns
exactly the specified text, for every field value (the function is total). -/
theorem c5_name_per_variant (t f l n : String) (i : Nat) :
    HasName.name (FormalPerson.mk t f l) = t ++ " " ++ f ++ " " ++ l
    ∧ HasName.name (CasualPerson.mk n) = n
    ∧ HasName.name (Anonymous.mk i) = "Anonymous #" ++ toString i :=
⟨rfl, rfl, rfl⟩

/-- Claim C6: reference scenarios for the per-variant handlers (CustomGreeter
of mod v7 and PoliteGreeter of mod v8) on the three reference subjects. -/
theorem c6_reference_scenarios :
    v7.Greeter.greet v7.CustomGreeter.mk (FormalPerson.new "Mr." "John" "Smith")
      = "Welcome back, Mr. Smith!"
    ∧ v7.Greeter.greet v7.CustomGreeter.mk (CasualPerson.new "Alice") = "Hello, Alice!"
    ∧ v7.Greeter.greet v7.CustomGreeter.mk (Anonymous.new 8)
      = "Hello stranger, your ID is 8."
    ∧ v8.Greeter.greet (v8.Unit.mk v8.PoliteGreeter.mk) (FormalPerson.new "Mr." "John" "Smith")
      = "Welcome back, Mr. Smith!"
    ∧ v8.Greeter.greet (v8.Unit.mk v8.PoliteGreeter.mk) (CasualPerson.new "Alice")
      = "Hello, Alice!"
    ∧ v8.Greeter.greet (v8.Unit.mk v8.PoliteGreeter.mk) (Anonymous.new 8)
      = "Hello stranger, your ID is 8." :=
⟨rfl, rfl, rfl, rfl, rfl, rfl⟩

/-- Claim C7: each named constructor of AnyPerson and AnyGreeter behaves
exactly like the raw nested sum it wraps: name forwards through the subject
wrapper, and greet forwards through the greeter wrapper onto the underlying
subject sum. -/
theorem c7_opaque_wrapper_equivalence
    (fp : FormalPerson) (cp : CasualPerson) (an : Anonymous)
    (pg : v8.PoliteGreeter) (ap : AnyPerson) (wg : WordGreeter) (p : AnyPerson) :
    HasName.name (AnyPerson.formal fp) = HasName.name (Either.Left fp : AnyPersonGeneric)
    ∧ HasName.name (AnyPerson.casual cp)
      = HasName.name (Either.Right (Either.Left cp) : AnyPersonGeneric)
    ∧ HasName.name (AnyPerson.anon an)
      = HasName.name (Either.Right (Either.Right an) : AnyPersonGeneric)
    ∧ v8.Greeter.greet (v8.AnyGreeter.polite pg) p
      = v8.Greeter.greet (Either.Left (v8.Unit.mk pg) : v8.AnyGreeterGeneric) p.inner
    ∧ v8.Greeter.greet (v8.AnyGreeter.person ap) p
      = v8.Greeter.greet
          (Either.Right (Either.Left (v8.Unit.mk (v8.PersonGreeter.mk ap)))
            : v8.AnyGreeterGeneric) p.inner
    ∧ v8.Greeter.greet (v8.AnyGreeter.word wg) p
      = v8.Greeter.greet
          (Either.Right (Either.Right (v8.WithName.mk wg)) : v8.AnyGreeterGeneric) p.inner :=
⟨rfl, rfl, rfl, rfl, rfl, rfl⟩

/-- Claim C8: injecting the same concrete value into the corresponding slot of
the two nesting shapes Either A (Either B C) and Either (Either A B) C yields
identical name output. -/
theorem c8_nesting_associativity {A B C : Type} [HasName A] [HasName B] [HasName C]
    (a : A) (b : B) (c : C) :
    HasName.name (Either.Left a : Either A (Either B C))
      = HasName.name (Either.Left (Either.Left a) : Either (Either A B) C)
    ∧ HasName.name (Either.Right (Either.Left b) : Either A (Either B C))
      = HasName.name (Either.Left (Either.Right b) : Either (Either A B) C)
    ∧ HasName.name (Either.Right (Either.Right c) : Either A (Either B C))
      = HasName.name (Either.Right c : Either (Either A B) C) :=
⟨rfl, rfl, rfl⟩

/-- Claim C9 counterexample: the name-bearing delegating handler's formal
output ends with the handler's own name ('b' of "Bob") and its anonymous
output ends with '?', neither of which is a '!' or '.' terminator; moreover a
subject name ending in '!' yields a double terminator, and a greet word made
of whitespace yields leading whitespace, so the claim as stated fails. -/
theorem c9_counterexample :
    v8.Greeter.greet (v8.Unit.mk (v8.PersonGreeter.mk (CasualPerson.new "Bob")))
        (FormalPerson.new "Mr." "John" "Smith")
      = "Greetings, Mr. Smith! My name is Bob"
    ∧ ("Greetings, Mr. Smith! My name is Bob").data.getLast? = some 'b'
    ∧ v8.Greeter.greet (v8.Unit.mk (v8.PersonGreeter.mk (CasualPerson.new "Bob")))
        (Anonymous.new 8)
      = "Hello, stranger with ID #8! What is your name?"
    ∧ ("Hello, stranger with ID #8! What is your name?").data.getLast? = some '?'
    ∧ v8.Greeter.greet (v8.Unit.mk v8.PoliteGreeter.mk) (CasualPerson.new "Alice!")
      = "Hello, Alice!!"
    ∧ ("Hello, Alice!!").data.dropLast.getLast? = some '!'
    ∧ v6.Greeter.greet (WordGreeter.new " ") (CasualPerson.new "Alice") = " , Alice!"
    ∧ (" , Alice!").data.head? = some ' '
    ∧ (' ').isWhitespace = true
    ∧ ('b' ≠ '!' ∧ 'b' ≠ '.' ∧ '?' ≠ '!' ∧ '?' ≠ '.') := by
refine ⟨rfl, by decide, rfl, by decide, rfl, by decide, rfl, by decide, by decide, by decide⟩

/-- Claim C9 amended: for every subject value, the outputs of HelloGreeter,
WordGreeter (directly or through WithName), the generic greeting function,
CustomGreeter and PoliteGreeter end with a terminating '!' or '.', and all of
them except WordGreeter begin with a fixed non-whitespace letter (WordGreeter
output begins with the caller-chosen greet word); the name-bearing delegating
handler is the exception: its formal and casual outputs end with the
handler's own display name and its anonymous output ends with '?'. -/
theorem c9_output_shape {P Q : Type} [HasName P] [HasName Q]
    (x : P) (own : Q) (fp : FormalPerson) (cp : CasualPerson) (an : Anonymous) (w : String) :
    (v6.Greeter.greet HelloGreeter.mk x).data.head? = some 'h'
    ∧ (v6.Greeter.greet HelloGreeter.mk x).data.getLast? = some '!'
    ∧ (v6.Greeter.greet (WordGreeter.new w) x).data.getLast? = some '!'
    ∧ (∃ rest, v6.Greeter.greet (WordGreeter.new w) x = w ++ rest)
    ∧ (greet_generic x).data.head? = some 'H'
    ∧ (greet_generic x).data.getLast? = some '!'
    ∧ (v7.Greeter.greet v7.CustomGreeter.mk fp).data.head? = some 'W'
    ∧ (v7.Greeter.greet v7.CustomGreeter.mk fp).data.getLast? = some '!'
    ∧ (v7.Greeter.greet v7.CustomGreeter.mk cp).data.head? = some 'H'
    ∧ (v7.Greeter.greet v7.CustomGreeter.mk cp).data.getLast? = some '!'
    ∧ (v7.Greeter.greet v7.CustomGreeter.mk an).data.head? = some 'H'
    ∧ (v7.Greeter.greet v7.CustomGreeter.mk an).data.getLast? = some '.'
    ∧ (v8.Greeter.greet (v8.Unit.mk v8.PoliteGreeter.mk) fp).data.head? = some 'W'
    ∧ (v8.Greeter.greet (v8.Unit.mk v8.PoliteGreeter.mk) fp).data.getLast? = some '!'
    ∧ (v8.Greeter.greet (v8.Unit.mk v8.PoliteGreeter.mk) cp).data.head? = some 'H'
    ∧ (v8.Greeter.greet (v8.Unit.mk v8.PoliteGreeter.mk) cp).data.getLast? = some '!'
    ∧ (v8.Greeter.greet (v8.Unit.mk v8.PoliteGreeter.mk) an).data.head? = some 'H'
    ∧ (v8.Greeter.greet (v8.Unit.mk v8.PoliteGreeter.mk) an).data.getLast? = some '.'
    ∧ (v8.Greeter.greet (v8.WithName.mk (WordGreeter.new w)) x).data.getLast? = some '!'
    ∧ (∃ rest, v8.Greeter.greet (v8.WithName.mk (WordGreeter.new w)) x = w ++ rest)
    ∧ (v8.Greeter.greet (v8.Unit.mk (v8.PersonGreeter.mk own)) fp).data.head? = some 'G'
    ∧ (∃ pre, v8.Greeter.greet (v8.Unit.mk (v8.PersonGreeter.mk own)) fp
        = pre ++ HasName.name own)
    ∧ (v8.Greeter.greet (v8.Unit.mk (v8.PersonGreeter.mk own)) cp).data.head? = some 'H'
    ∧ (∃ pre, v8.Greeter.greet (v8.Unit.mk (v8.PersonGreeter.mk own)) cp
        = pre ++ HasName.name own)
    ∧ (v8.Greeter.greet (v8.Unit.mk (v8.PersonGreeter.mk own)) an).data.head? = some 'H'
    ∧ (v8.Greeter.greet (v8.Unit.mk (v8.PersonGreeter.mk own)) an).data.getLast? = some '?' := by
refine ⟨rfl, ?_, ?_, ?_, rfl, ?_, rfl, ?_, rfl, ?_, rfl, ?_, rfl, ?_, rfl, ?_, rfl, ?_,
  ?_, ?_, rfl, ?_, rfl, ?_, rfl, ?_⟩
· exact string_getLast_append ("hello, " ++ HasName.name x) "!" '!' rfl
· exact string_getLast_append (w ++ ", " ++ HasName.name x) "!" '!' rfl
· refine ⟨", " ++ (HasName.name x ++ "!"), ?_⟩
  show w ++ ", " ++ HasName.name x ++ "!" = w ++ (", " ++ (HasName.name x ++ "!"))
  simp only [string_append_assoc]
· exact string_getLast_append ("Hello, " ++ HasName.name x) "!" '!' rfl
· exact string_getLast_append ("Welcome back, " ++ fp.title ++ " " ++ fp.last_name) "!" '!' rfl
· exact string_getLast_append ("Hello, " ++ cp.name) "!" '!' rfl
· exact string_getLast_append ("Hello stranger, your ID is " ++ toString an.id) "." '.' rfl
· exact string_getLast_append ("Welcome back, " ++ fp.title ++ " " ++ fp.last_name) "!" '!' rfl
· exact string_getLast_append ("Hello, " ++ cp.name) "!" '!' rfl
· exact string_getLast_append ("Hello stranger, your ID is " ++ toString an.id) "." '.' rfl
· exact string_getLast_append (w ++ ", " ++ HasName.name x) "!" '!' rfl
· refine ⟨", " ++ (HasName.name x ++ "!"), ?_⟩
  show w ++ ", " ++ HasName.name x ++ "!" = w ++ (", " ++ (HasName.name x ++ "!"))
  simp only [string_append_assoc]
· exact ⟨"Greetings, " ++ fp.title ++ " " ++ fp.last_name ++ "! My name is ", rfl⟩
· exact ⟨"Hi, " ++ cp.name ++ "! I am ", rfl⟩
· exact string_getLast_append ("Hello, stranger with ID #" ++ toString an.id)
    "! What is your name?" '?' rfl

/-- Claim C10: the subject constructors perform no validation and simply store
their inputs, for every string including the empty string, and the name
capability stays total on the result (the empty-name case is shown
explicitly). -/
theorem c10_constructors_total (s t f l : String) :
    (CasualPerson.new s).name = s
    ∧ HasName.name (CasualPerson.new s) = s
    ∧ FormalPerson.new t f l = FormalPerson.mk t f l
    ∧ HasName.name (FormalPerson.new t f l) = t ++ " " ++ f ++ " " ++ l
    ∧ HasName.name (CasualPerson.new "") = "" :=
⟨rfl, rfl, rfl, rfl, rfl⟩
